import Mathlib

/-!
Shallow embedding of the mock backend in `routes.py` (FastAPI router of the
bendersdummy repository): project listing/creation with bearer-token checks,
the mock login endpoint, and the persona / brand-design / third-party fixture
endpoints.  Python strings are modelled as lists of characters, the shared
in-memory `MOCK_PROJECTS` list as an explicit state argument, and the
nondeterministic ingredients (UUIDs, timestamps, `random.choice`,
`secrets.token_urlsafe`) as explicit parameters.
-/

namespace BendersDummy

/-- Python strings, modelled as lists of characters. -/
abbrev Str : Type := List Char

/-- Coerce a Lean string literal into the model type. -/
def str (s : String) : Str := s.toList

/-- Python `str.lower()`, modelled as per-character lowercasing. -/
def lowerStr (s : Str) : Str := s.map Char.toLower

/-- Python `str.strip()`: drop leading and trailing whitespace. -/
def stripStr (s : Str) : Str :=
  ((s.dropWhile Char.isWhitespace).reverse.dropWhile Char.isWhitespace).reverse

/-- Python `needle in hay` substring membership. -/
def containsSub : Str → Str → Bool
  | [], needle => needle.isEmpty
  | c :: t, needle => needle.isPrefixOf (c :: t) || containsSub t needle

/-- Python `s.replace("Bearer ", "")`: delete every occurrence of the
seven-character pattern `"Bearer "`, scanning left to right. -/
def removeBearerAll : Str → Str
  | 'B' :: 'e' :: 'a' :: 'r' :: 'e' :: 'r' :: ' ' :: rest => removeBearerAll rest
  | c :: rest => c :: removeBearerAll rest
  | [] => []

/-- Outcome of `verify_auth_token` (routes.py lines 140-173): success, or an
HTTP error with status and detail. -/
inductive AuthCheck where
  | ok : AuthCheck
  | fail (status : Nat) (detail : String) : AuthCheck
deriving DecidableEq, Repr

/-- routes.py `verify_auth_token`: a missing or empty header, a header not
starting with `"Bearer "`, a token (the header with every `"Bearer "`
occurrence removed) of length < 10, or a token whose lowercasing contains
`"expired"`, each raise 401; otherwise the check passes. -/
def verify_auth_token : Option Str → AuthCheck
  | none => .fail 401 "Not authenticated"
  | some a =>
    if a.isEmpty then .fail 401 "Not authenticated"
    else if !(str "Bearer ").isPrefixOf a then
      .fail 401 "Invalid authentication credentials"
    else if (removeBearerAll a).length < 10 then
      .fail 401 "Invalid authentication credentials"
    else if containsSub (lowerStr (removeBearerAll a)) (str "expired") then
      .fail 401 "Token has expired"
    else .ok

/-- Project records of the in-memory `MOCK_PROJECTS` store. -/
structure Project where
  id : Str
  name : Str
  description : Option Str
  created_at : Str
  updated_at : Str
deriving DecidableEq, Repr

/-- routes.py lines 94-137: the initial six-project fixture. -/
def MOCK_PROJECTS : List Project :=
  [ ⟨str "a1b2c3d4-e5f6-7890-abcd-ef1234567890",
     str "E-commerce Platform",
     some (str "B2B e-commerce solution with advanced inventory management and real-time analytics"),
     str "2025-10-01T09:15:30.000Z", str "2025-10-05T14:22:15.000Z"⟩,
    ⟨str "b2c3d4e5-f6a7-8901-bcde-f12345678901",
     str "Customer Portal",
     some (str "Self-service portal for customer account management"),
     str "2025-09-28T11:30:00.000Z", str "2025-10-04T16:45:22.000Z"⟩,
    ⟨str "c3d4e5f6-a7b8-9012-cdef-123456789012",
     str "Internal Dashboard",
     some (str "Analytics dashboard for business intelligence and reporting"),
     str "2025-09-25T08:00:00.000Z", str "2025-10-03T10:15:30.000Z"⟩,
    ⟨str "d4e5f6a7-b8c9-0123-def1-234567890123",
     str "Mobile App Backend",
     some (str "RESTful API backend for iOS and Android applications"),
     str "2025-09-20T14:20:00.000Z", str "2025-10-02T09:30:45.000Z"⟩,
    ⟨str "e5f6a7b8-c9d0-1234-ef12-345678901234",
     str "Payment Gateway Integration",
     some (str "Secure payment processing system with multiple payment providers"),
     str "2025-09-15T10:45:00.000Z", str "2025-10-01T13:20:10.000Z"⟩,
    ⟨str "f6a7b8c9-d0e1-2345-f123-456789012345",
     str "Inventory Management System",
     none,
     str "2025-09-10T16:30:00.000Z", str "2025-09-30T11:55:22.000Z"⟩ ]

/-- The filter predicate of `list_projects` (routes.py lines 205-211):
`search_term in p["name"].lower() or (p["description"] and search_term in
p["description"].lower())`, where a `None` or empty description is falsy. -/
def projectMatches (term : Str) (p : Project) : Bool :=
  containsSub (lowerStr p.name) term ||
    (match p.description with
     | some d => !d.isEmpty && containsSub (lowerStr d) term
     | none => false)

/-- Body of a successful `list_projects` response. -/
structure ListResponse where
  projects : List Project
  total : Nat
  page : Nat
  size : Nat
  pages : Nat
deriving DecidableEq, Repr

/-- Outcome of `list_projects`: body on success, HTTP error otherwise. -/
inductive ListResult where
  | ok (resp : ListResponse) : ListResult
  | fail (status : Nat) (detail : String) : ListResult
deriving DecidableEq, Repr

/-- The `filtered_projects` computation of `list_projects` (routes.py lines
202-211): the store is filtered by the stripped, lowercased search term, but
only when the search string is present and non-empty after stripping. -/
def codeFiltered (state : List Project) (search : Option Str) : List Project :=
  match search with
  | some s =>
    if (stripStr s).isEmpty then state
    else state.filter (projectMatches (lowerStr (stripStr s)))
  | none => state

/-- routes.py `list_projects` (lines 176-228): verify the token, filter the
store (see `codeFiltered`), compute `total = len(filtered)`,
`pages = (total + size - 1) // size` when `total > 0` else `0`, and slice
`filtered[(page-1)*size : (page-1)*size + size]`. -/
def list_projects (state : List Project) (page size : Nat) (search : Option Str)
    (auth : Option Str) : ListResult :=
  match verify_auth_token auth with
  | .fail s d => .fail s d
  | .ok =>
    .ok ⟨((codeFiltered state search).drop ((page - 1) * size)).take size,
      (codeFiltered state search).length, page, size,
      if 0 < (codeFiltered state search).length then
        ((codeFiltered state search).length + size - 1) / size
      else 0⟩

/-- The filtering step as the specification words it: keep exactly the
projects whose name or description contains the (trimmed, lowercased) search
term, case-insensitively.  Used to state claim C1 against `list_projects`. -/
def specFiltered (state : List Project) (search : Option Str) : List Project :=
  match search with
  | none => state
  | some s =>
    state.filter (fun p =>
      containsSub (lowerStr p.name) (lowerStr (stripStr s)) ||
        (match p.description with
         | some d => containsSub (lowerStr d) (lowerStr (stripStr s))
         | none => false))

/-- JSON values as far as `create_project` distinguishes them: a string, the
absent-or-null case of `request.get`, or any other (non-string) value. -/
inductive JVal where
  | jstr (s : Str) : JVal
  | jnull : JVal
  | jother : JVal
deriving DecidableEq, Repr

/-- Request body of `create_project`: whether the key `"name"` is present,
its value when present, and `request.get("description")`. -/
structure CreateRequest where
  hasName : Bool
  name : JVal
  description : JVal
deriving DecidableEq, Repr

/-- Description validation of `create_project` (routes.py lines 307-338):
absent stays null, a non-string is a 400, an empty-after-trim string becomes
null, a trimmed string longer than 1000 characters is a 400. -/
def validateDescription : JVal → Except String (Option Str)
  | .jnull => .ok none
  | .jother => .error "str type expected"
  | .jstr d =>
    if (stripStr d).isEmpty then .ok none
    else if 1000 < (stripStr d).length then
      .error "ensure this value has at most 1000 characters"
    else .ok (some (stripStr d))

/-- Outcome of `create_project`: HTTP status, error detail, response body on
success, and the project list after the call. -/
structure CreateOutcome where
  status : Nat
  detail : Option String
  body : Option Project
  state : List Project
deriving DecidableEq, Repr

/-- routes.py `create_project` (lines 231-361): verify the token, validate
the name (present, a string, non-empty and at most 255 characters after
trimming), validate the description, reject a case-insensitive duplicate name
with 409, otherwise build the record from the fresh UUID and timestamp and
prepend it to the list.  `freshId` models `str(uuid.uuid4())` and `now`
models the formatted `datetime.utcnow()`. -/
def create_project (state : List Project) (req : CreateRequest) (auth : Option Str)
    (freshId now : Str) : CreateOutcome :=
  match verify_auth_token auth with
  | .fail s d => ⟨s, some d, none, state⟩
  | .ok =>
    if !req.hasName then ⟨400, some "field required", none, state⟩
    else
      match req.name with
      | .jnull => ⟨400, some "str type expected", none, state⟩
      | .jother => ⟨400, some "str type expected", none, state⟩
      | .jstr rawName =>
        if (stripStr rawName).isEmpty then
          ⟨400, some "Project name cannot be empty", none, state⟩
        else if 255 < (stripStr rawName).length then
          ⟨400, some "ensure this value has at most 255 characters", none, state⟩
        else
          match validateDescription req.description with
          | .error msg => ⟨400, some msg, none, state⟩
          | .ok desc =>
            if state.any (fun p => lowerStr p.name == lowerStr (stripStr rawName)) then
              ⟨409, some "A project with this name already exists", none, state⟩
            else
              ⟨201, none, some ⟨freshId, stripStr rawName, desc, now, now⟩,
                ⟨freshId, stripStr rawName, desc, now, now⟩ :: state⟩

/-- States of the shared project list reachable from the fixture by any
sequence of `create_project` calls (the only operation that writes it). -/
inductive ReachableState : List Project → Prop where
  | init : ReachableState MOCK_PROJECTS
  | step (s : List Project) (req : CreateRequest) (auth : Option Str)
      (freshId now : Str) :
      ReachableState s → ReachableState (create_project s req auth freshId now).state

/-- Claim C4 as worded: the header is accepted exactly when it starts with
`"Bearer "` and the remaining token — the part after that prefix — has
length at least 10 and does not contain `"expired"`. -/
def claimedAccepts (a : Str) : Bool :=
  (str "Bearer ").isPrefixOf a && decide (10 ≤ (a.drop 7).length) &&
    !containsSub (a.drop 7) (str "expired")

/-- Python `str.capitalize()`: first character uppercased, rest lowercased. -/
def capitalizeStr : Str → Str
  | [] => []
  | c :: t => c.toUpper :: t.map Char.toLower

/-- Response of the `login` endpoint: status, and on success the token, the
token type and the echoed user email and derived display name. -/
structure LoginOutcome where
  status : Nat
  access_token : Option Str
  token_type : Option Str
  userEmail : Option Str
  userName : Option Str
deriving DecidableEq, Repr

/-- routes.py `login` (lines 39-88): empty username or password is a 400, a
password shorter than 3 characters is a 401, anything else is a 200 with a
token `"mock_jwt_" + secrets.token_urlsafe(32)` (the random suffix is the
parameter `tokenSuffix`), token type `"bearer"`, and a user object whose
email echoes the username and whose name capitalizes the part before `'@'`. -/
def login (username password tokenSuffix : Str) : LoginOutcome :=
  if username.isEmpty || password.isEmpty then ⟨400, none, none, none, none⟩
  else if password.length < 3 then ⟨401, none, none, none, none⟩
  else
    ⟨200, some (str "mock_jwt_" ++ tokenSuffix), some (str "bearer"),
      some username,
      some (capitalizeStr
        (if username.contains (Char.ofNat 64) then
          username.takeWhile (fun c => c ≠ Char.ofNat 64)
        else username))⟩

/-- Modelled from the spec: the Item records of the legacy `/items` CRUD
endpoints, which are absent from `src/` (only described in the spec's data
model and interface sections): "simple records with auto-incrementing integer
id", with `created_at` set at creation. -/
structure Item where
  id : Nat
  value : Str
  created_at : Str
deriving DecidableEq, Repr

/-- Modelled from the spec: the ordered backing list of items together with
the auto-increment counter; ids are never reused after deletion. -/
structure ItemStore where
  items : List Item
  nextId : Nat
deriving DecidableEq, Repr

/-- Modelled from the spec: the empty initial item store. -/
def ItemStore.init : ItemStore := ⟨[], 1⟩

/-- Modelled from the spec: get-by-id, a linear scan over the backing list;
`none` models the 404 response when the id is absent. -/
def get_item (st : ItemStore) (i : Nat) : Option Item :=
  st.items.find? (fun it => it.id == i)

/-- Modelled from the spec: create assigns the next integer id, sets
`created_at`, appends to the ordered list and bumps the counter. -/
def create_item (st : ItemStore) (v now : Str) : Item × ItemStore :=
  (⟨st.nextId, v, now⟩, ⟨st.items ++ [⟨st.nextId, v, now⟩], st.nextId + 1⟩)

/-- Modelled from the spec: update (items only) replaces the payload of the
record with the given id, preserving its `id` and `created_at`; `none`
models the 404 response when the id is absent. -/
def update_item (st : ItemStore) (i : Nat) (v : Str) : Option (Item × ItemStore) :=
  match st.items.find? (fun it => it.id == i) with
  | none => none
  | some old =>
    some (⟨old.id, v, old.created_at⟩,
      ⟨st.items.map (fun it => if it.id == i then ⟨old.id, v, old.created_at⟩ else it),
        st.nextId⟩)

/-- Modelled from the spec: delete removes the record with the given id;
`none` models the 404 response when the id is absent.  The counter is not
decremented, so ids are never reused. -/
def delete_item (st : ItemStore) (i : Nat) : Option ItemStore :=
  if st.items.any (fun it => it.id == i) then
    some ⟨st.items.filter (fun it => !(it.id == i)), st.nextId⟩
  else none

/-- Modelled from the spec: the operations a client can run against the item
store. -/
inductive ItemOp where
  | createOp (v now : Str) : ItemOp
  | updateOp (i : Nat) (v : Str) : ItemOp
  | deleteOp (i : Nat) : ItemOp

/-- Modelled from the spec: apply one operation (an operation answering 404
leaves the store unchanged). -/
def applyItemOp (st : ItemStore) : ItemOp → ItemStore
  | .createOp v now => (create_item st v now).2
  | .updateOp i v =>
    match update_item st i v with
    | some r => r.2
    | none => st
  | .deleteOp i =>
    match delete_item st i with
    | some st2 => st2
    | none => st

/-- Modelled from the spec: run a sequence of operations from the initial
store. -/
def runItemOps (ops : List ItemOp) : ItemStore :=
  ops.foldl applyItemOp .init

/-- Modelled from the spec: the User records of the legacy `/users` CRUD
endpoints (absent from `src/`), identical id mechanics but no update path
and no `created_at`. -/
structure User where
  id : Nat
  value : Str
deriving DecidableEq, Repr

/-- Modelled from the spec: the ordered backing list of users with its
auto-increment counter. -/
structure UserStore where
  users : List User
  nextId : Nat
deriving DecidableEq, Repr

/-- Modelled from the spec: user get-by-id; `none` models the 404. -/
def get_user (st : UserStore) (i : Nat) : Option User :=
  st.users.find? (fun u => u.id == i)

/-- Modelled from the spec: user delete; `none` models the 404. -/
def delete_user (st : UserStore) (i : Nat) : Option UserStore :=
  if st.users.any (fun u => u.id == i) then
    some ⟨st.users.filter (fun u => !(u.id == i)), st.nextId⟩
  else none

/-- Token extraction shared by the persona / brand-design / third-party
endpoints (routes.py lines 420-423 and clones): the token is read for
logging only and never validated. -/
def extractToken (auth : Option Str) : Option Str :=
  match auth with
  | some a =>
    if !a.isEmpty && (str "Bearer ").isPrefixOf a then some (removeBearerAll a)
    else none
  | none => none

/-- routes.py `get_userpersonas` (lines 399-492): the random draw is
immediately overwritten with `True`, so the endpoint always answers 200 with
the four fixture personas.  Returns (status, persona count). -/
def get_userpersonas (user_id project_id : Option Str) (auth : Option Str)
    (coin : Bool) : Nat × Nat :=
  let _token := extractToken auth
  let _coin := coin
  let has_personas := true
  if has_personas then (200, 4) else (200, 0)

/-- routes.py `upload_userpersonas` (lines 495-556): 400 when no persona is
selected, else 200; the token is only logged. -/
def upload_userpersonas (selected_personas : List Str)
    (user_id project_id : Option Str) (auth : Option Str) : Nat :=
  let _token := extractToken auth
  if selected_personas.isEmpty then 400 else 200

/-- Body of a `get_branddesign` response: the full fixture object or the
empty object. -/
inductive BrandBody where
  | full (brandName fontFamily tone : Str) : BrandBody
  | empty : BrandBody
deriving DecidableEq, Repr

/-- routes.py `get_branddesign` (lines 560-627): a fresh
`random.choice([True, False])` (the parameter `coin`) decides between the
full mock brand design and the empty object; the status is 200 either way
and the token is only logged. -/
def get_branddesign (user_id project_id : Option Str) (auth : Option Str)
    (coin : Bool) : Nat × BrandBody :=
  let _token := extractToken auth
  if coin then
    (200, .full (str "TechCorp Solutions") (str "Inter") (str "Professional"))
  else (200, .empty)

/-- routes.py `upload_branddesign` (lines 630-716): 400 when the brand name
is empty after trimming or the colors object is empty, else 200; the token
is only logged. -/
def upload_branddesign (brandName : Str) (colors : List (Str × Str))
    (user_id project_id : Option Str) (auth : Option Str) : Nat :=
  let _token := extractToken auth
  if (stripStr brandName).isEmpty then 400
  else if colors.isEmpty then 400
  else 200

/-- routes.py `get_thirdparty` (lines 825-928): always 200 with the fixture
API list; the token is only logged. -/
def get_thirdparty (user_id project_id : Option Str) (auth : Option Str) : Nat :=
  let _token := extractToken auth
  200

/-- routes.py `upload_thirdparty` (lines 931-1008): always 200, even with no
selected APIs; the token is only logged. -/
def upload_thirdparty (selected_apis : List Str)
    (user_id project_id : Option Str) (auth : Option Str) : Nat :=
  let _token := extractToken auth
  200

/-- routes.py `upload_thirdprovider` (lines 1011-1141): 400 when no provider
is selected, else 200; the token is only logged. -/
def upload_thirdprovider (selected_providers : List (Str × Str))
    (user_id project_id : Option Str) (auth : Option Str) : Nat :=
  let _token := extractToken auth
  if selected_providers.isEmpty then 400 else 200

/-- Modelled from the spec: the id invariant of the item store — every stored
id is below the auto-increment counter and ids are pairwise distinct. -/
def ItemInv (st : ItemStore) : Prop :=
  (∀ it ∈ st.items, it.id < st.nextId) ∧ st.items.Pairwise (fun a b => a.id ≠ b.id)

/-!  Theorems.  -/

theorem containsSub_nil_right (hay : Str) : containsSub hay [] = true := by
  cases hay with
  | nil => rfl
  | cons c t => rfl

theorem lowerStr_length (s : Str) : (lowerStr s).length = s.length :=
  List.length_map s Char.toLower

theorem lowerStr_eq_nil_iff (s : Str) : lowerStr s = [] ↔ s = [] :=
  List.map_eq_nil_iff

theorem containsSub_nil_left (needle : Str) : containsSub [] needle = needle.isEmpty := rfl

/-- The code's filtering (skip the filter when the stripped search is empty)
agrees with the filter the spec describes, applied unconditionally. -/
theorem codeFiltered_eq_specFiltered (state : List Project) (search : Option Str) :
    codeFiltered state search = specFiltered state search := by
  cases search with
  | none => rfl
  | some s =>
    show (if (stripStr s).isEmpty then state
      else state.filter (projectMatches (lowerStr (stripStr s)))) = _
    unfold specFiltered
    by_cases h : (stripStr s).isEmpty
    · rw [if_pos h]
      rw [List.isEmpty_iff] at h
      symm
      apply List.filter_eq_self.mpr
      intro p _
      rw [h]
      show (containsSub (lowerStr p.name) (lowerStr []) || _) = true
      rw [show lowerStr [] = [] from rfl, containsSub_nil_right]
      rfl
    · rw [if_neg h]
      apply List.filter_congr
      intro p _
      have hterm : lowerStr (stripStr s) ≠ [] := by
        rw [Ne, lowerStr_eq_nil_iff]
        rw [List.isEmpty_iff] at h
        exact h
      unfold projectMatches
      cases hd : p.description with
      | none => rfl
      | some d =>
        cases d with
        | nil =>
          have h2 : containsSub [] (lowerStr (stripStr s)) = false := by
            rw [containsSub_nil_left]
            rw [List.isEmpty_eq_false]
            exact hterm
          show (_ || (!([] : Str).isEmpty && _)) = (_ || containsSub (lowerStr []) _)
          rw [show lowerStr [] = [] from rfl, h2]
          rfl
        | cons c t =>
          show (_ || (!((c :: t : Str)).isEmpty && containsSub (lowerStr (c :: t)) _)) = _
          rw [show ((c :: t : Str)).isEmpty = false from rfl]
          rw [Bool.not_false, Bool.true_and]

/-- Ceiling division: the code's `(t + s - 1) / s` is the ceiling of the
rational `t / s`. -/
theorem pred_div_eq_ceil (t s : Nat) (hs : 0 < s) :
    (t + s - 1) / s = ⌈(t : ℚ) / (s : ℚ)⌉₊ := by
  have hsq : (0 : ℚ) < (s : ℚ) := by exact_mod_cast hs
  apply le_antisymm
  · rw [Nat.div_le_iff_le_mul_add_pred hs, Nat.mul_comm]
    have h1 : (t : ℚ) / s ≤ (⌈(t : ℚ) / (s : ℚ)⌉₊ : ℚ) := Nat.le_ceil _
    have h2 : (t : ℚ) ≤ (⌈(t : ℚ) / (s : ℚ)⌉₊ : ℚ) * s := by
      rwa [div_le_iff₀ hsq] at h1
    have h3 : t ≤ ⌈(t : ℚ) / (s : ℚ)⌉₊ * s := by exact_mod_cast h2
    generalize (⌈(t : ℚ) / (s : ℚ)⌉₊ * s) = D at h3 ⊢
    omega
  · rw [Nat.ceil_le, div_le_iff₀ hsq]
    have h5 := Nat.lt_div_mul_add (a := t + s - 1) hs
    have h4 : t ≤ (t + s - 1) / s * s := by
      generalize ((t + s - 1) / s * s) = D at h5 ⊢
      omega
    exact_mod_cast h4

/-- C4 counterexample: the header `"Bearer Bearer 12345"` satisfies the
claim's acceptance condition (it starts with `"Bearer "`, the remaining
token `"Bearer 12345"` has length 12 ≥ 10 and does not contain `"expired"`),
yet `verify_auth_token` rejects it with 401, because the code strips every
occurrence of `"Bearer "`, leaving the 5-character token `"12345"`. -/
theorem C4_counterexample :
    claimedAccepts (str "Bearer Bearer 12345") = true ∧
    verify_auth_token (some (str "Bearer Bearer 12345")) =
      .fail 401 "Invalid authentication credentials" :=
  ⟨by decide, by decide⟩

/-- C4 (amended): for GET and POST /api/v1/projects the Authorization header
is accepted exactly when it starts with `"Bearer "` and the token obtained by
deleting every occurrence of `"Bearer "` from the header has length ≥ 10 and
its lowercasing does not contain `"expired"`; every rejection (missing
header, malformed header, short token, expired-looking token) carries
status 401. -/
theorem C4_auth_token_acceptance (auth : Option Str) :
    (verify_auth_token auth = .ok ↔
      ∃ a, auth = some a ∧ (str "Bearer ").isPrefixOf a = true ∧
        10 ≤ (removeBearerAll a).length ∧
        containsSub (lowerStr (removeBearerAll a)) (str "expired") = false) ∧
    (∀ s d, verify_auth_token auth = .fail s d → s = 401) := by
  cases auth with
  | none =>
    constructor
    · constructor
      · intro h; exact absurd h (by decide)
      · rintro ⟨a, ha, -⟩; cases ha
    · intro s d h
      have h2 : verify_auth_token none = .fail 401 "Not authenticated" := rfl
      rw [h2] at h
      cases h
      rfl
  | some a =>
    have hunfold : verify_auth_token (some a) =
        (if a.isEmpty then .fail 401 "Not authenticated"
        else if !(str "Bearer ").isPrefixOf a then
          .fail 401 "Invalid authentication credentials"
        else if (removeBearerAll a).length < 10 then
          .fail 401 "Invalid authentication credentials"
        else if containsSub (lowerStr (removeBearerAll a)) (str "expired") then
          .fail 401 "Token has expired"
        else .ok) := rfl
    rw [hunfold]
    split_ifs with h1 h2 h3 h4
    · refine ⟨⟨fun h => absurd h (by simp), ?_⟩, fun s d h => by cases h; rfl⟩
      rintro ⟨b, hb, hpre, -, -⟩
      cases hb
      rw [List.isEmpty_iff] at h1
      subst h1
      exact absurd hpre (by decide)
    · refine ⟨⟨fun h => absurd h (by simp), ?_⟩, fun s d h => by cases h; rfl⟩
      rintro ⟨b, hb, hpre, -, -⟩
      cases hb
      rw [Bool.not_eq_true'] at h2
      rw [hpre] at h2
      cases h2
    · refine ⟨⟨fun h => absurd h (by simp), ?_⟩, fun s d h => by cases h; rfl⟩
      rintro ⟨b, hb, -, hlen, -⟩
      cases hb
      omega
    · refine ⟨⟨fun h => absurd h (by simp), ?_⟩, fun s d h => by cases h; rfl⟩
      rintro ⟨b, hb, -, -, hexp⟩
      cases hb
      rw [h4] at hexp
      cases hexp
    · refine ⟨⟨fun _ => ?_, fun _ => rfl⟩, fun s d h => by cases h⟩
      have hpre : List.isPrefixOf (str "Bearer ") a = true := by
        cases hx : List.isPrefixOf (str "Bearer ") a
        · exact absurd (by rw [hx]; rfl) h2
        · rfl
      have hexp : containsSub (lowerStr (removeBearerAll a)) (str "expired") = false := by
        cases hx : containsSub (lowerStr (removeBearerAll a)) (str "expired")
        · rfl
        · exact absurd hx h4
      exact ⟨a, rfl, hpre, by omega, hexp⟩

/-- C4 witness: a well-formed header is accepted, via the amended theorem. -/
theorem C4_witness : verify_auth_token (some (str "Bearer 1234567890")) = .ok :=
  ((C4_auth_token_acceptance (some (str "Bearer 1234567890"))).1).mpr
    ⟨str "Bearer 1234567890", rfl, by decide, by decide, by decide⟩

/-- C1: for every GET /api/v1/projects request with a valid token, page ≥ 1
and size in [1, 100], `list_projects` succeeds; its `projects` field is
exactly the slice of the spec-side filtered list (case-insensitive substring
match on name or description) from index `(page-1)*size` of length `size`,
its `total` field is the filtered length, and `pages` is 0 when the total is
0 and the ceiling of `total / size` otherwise. -/
theorem C1_list_projects_pagination
    (state : List Project) (page size : Nat) (search : Option Str)
    (auth : Option Str)
    (hauth : verify_auth_token auth = .ok)
    (hpage : 1 ≤ page) (hsize1 : 1 ≤ size) (hsize2 : size ≤ 100) :
    ∃ resp : ListResponse,
      list_projects state page size search auth = .ok resp ∧
      resp.projects =
        ((specFiltered state search).drop ((page - 1) * size)).take size ∧
      resp.total = (specFiltered state search).length ∧
      resp.page = page ∧ resp.size = size ∧
      (resp.total = 0 → resp.pages = 0) ∧
      (0 < resp.total → resp.pages = ⌈(resp.total : ℚ) / (size : ℚ)⌉₊) := by
  have hfe : codeFiltered state search = specFiltered state search :=
    codeFiltered_eq_specFiltered state search
  refine ⟨⟨((codeFiltered state search).drop ((page - 1) * size)).take size,
      (codeFiltered state search).length, page, size,
      if 0 < (codeFiltered state search).length then
        ((codeFiltered state search).length + size - 1) / size
      else 0⟩,
    ?_, by rw [hfe], by rw [hfe], rfl, rfl, ?_, ?_⟩
  · unfold list_projects
    rw [hauth]
  · intro h0
    simp only at h0 ⊢
    rw [if_neg]
    omega
  · intro hpos
    simp only at hpos ⊢
    rw [if_pos hpos, pred_div_eq_ceil _ _ hsize1]

/-- C1 witness: the spec's concrete example — with the six-project fixture,
no search, page 2 and size 2, the endpoint returns the third and fourth
projects and pages = 3 — together with the general theorem instantiated at
that request. -/
theorem C1_witness :
    list_projects MOCK_PROJECTS 2 2 none (some (str "Bearer 1234567890")) =
      .ok ⟨(MOCK_PROJECTS.drop 2).take 2, 6, 2, 2, 3⟩ ∧
    (∃ resp : ListResponse,
      list_projects MOCK_PROJECTS 2 2 none (some (str "Bearer 1234567890")) =
        .ok resp ∧
      resp.projects =
        ((specFiltered MOCK_PROJECTS none).drop ((2 - 1) * 2)).take 2 ∧
      resp.total = (specFiltered MOCK_PROJECTS none).length ∧
      resp.page = 2 ∧ resp.size = 2 ∧
      (resp.total = 0 → resp.pages = 0) ∧
      (0 < resp.total → resp.pages = ⌈(resp.total : ℚ) / ((2 : Nat) : ℚ)⌉₊)) :=
  ⟨by decide,
    C1_list_projects_pagination MOCK_PROJECTS 2 2 none
      (some (str "Bearer 1234567890")) (by decide) (by decide) (by decide)
      (by decide)⟩

/-- Case analysis on `create_project`: every branch either answers 201 —
prepending exactly the response body, whose lowercased name differs from
every name already stored — or leaves the project list untouched. -/
theorem create_project_state_cases (state : List Project) (req : CreateRequest)
    (auth : Option Str) (freshId now : Str) :
    ((create_project state req auth freshId now).status = 201 ∧
      ∃ p, (create_project state req auth freshId now).body = some p ∧
        (create_project state req auth freshId now).state = p :: state ∧
        ∀ q ∈ state, lowerStr p.name ≠ lowerStr q.name) ∨
    (create_project state req auth freshId now).state = state := by
  unfold create_project
  split
  · right; rfl
  · split
    · right; rfl
    · split
      · right; rfl
      · right; rfl
      · split
        · right; rfl
        · split
          · right; rfl
          · split
            · right; rfl
            · split
              · right; rfl
              · next hdup =>
                left
                refine ⟨rfl, _, rfl, rfl, ?_⟩
                intro q hq hEq
                apply hdup
                rw [List.any_eq_true]
                exact ⟨q, hq, beq_iff_eq.mpr hEq.symm⟩

/-- C9: `create_project` is atomic with respect to the project list — on
every non-201 outcome (401, 400 or 409) the list after the call equals the
list before it; only the success path mutates the list. -/
theorem C9_create_project_atomic (state : List Project) (req : CreateRequest)
    (auth : Option Str) (freshId now : Str)
    (h : (create_project state req auth freshId now).status ≠ 201) :
    (create_project state req auth freshId now).state = state := by
  rcases create_project_state_cases state req auth freshId now with ⟨h1, -⟩ | h1
  · exact absurd h1 h
  · exact h1

/-- C9 witness: a request with no Authorization header fails with 401 and
leaves the fixture list unchanged. -/
theorem C9_witness :
    (create_project MOCK_PROJECTS ⟨true, .jstr (str "Foo"), .jnull⟩ none
      (str "u1") (str "t1")).state = MOCK_PROJECTS :=
  C9_create_project_atomic MOCK_PROJECTS ⟨true, .jstr (str "Foo"), .jnull⟩ none
    (str "u1") (str "t1") (by decide)

/-- C5: every state of the project list reachable from the six-project
fixture by create-project calls has pairwise case-insensitively distinct
project names. -/
theorem C5_name_uniqueness (s : List Project) (h : ReachableState s) :
    s.Pairwise (fun p q => lowerStr p.name ≠ lowerStr q.name) := by
  induction h with
  | init => decide
  | step s req auth freshId now _hr ih =>
    rcases create_project_state_cases s req auth freshId now with
      ⟨-, p, -, hst, hfresh⟩ | hst
    · rw [hst]
      exact List.Pairwise.cons hfresh ih
    · rw [hst]; exact ih

/-- C5 witness: the invariant instantiated at the initial fixture itself. -/
theorem C5_witness :
    MOCK_PROJECTS.Pairwise (fun p q => lowerStr p.name ≠ lowerStr q.name) :=
  C5_name_uniqueness MOCK_PROJECTS ReachableState.init

/-- A description that is absent or a string of at most 1000 characters
after trimming passes description validation. -/
theorem validateDescription_ok (v : JVal)
    (h : v = .jnull ∨ ∃ d, v = .jstr d ∧ (stripStr d).length ≤ 1000) :
    ∃ dd, validateDescription v = .ok dd := by
  rcases h with h | ⟨d, rfl, hlen⟩
  · exact ⟨none, by rw [h]; rfl⟩
  · by_cases he : (stripStr d).isEmpty
    · refine ⟨none, ?_⟩
      simp only [validateDescription]
      rw [if_pos he]
    · refine ⟨some (stripStr d), ?_⟩
      simp only [validateDescription]
      rw [if_neg he, if_neg (by omega)]

/-- When the token and all fields validate, `create_project` reduces to the
duplicate check: 409 on a case-insensitive name collision, 201 with the new
record prepended otherwise. -/
theorem create_project_valid_eq (state : List Project) (req : CreateRequest)
    (auth : Option Str) (freshId now rawName : Str) (dd : Option Str)
    (hauth : verify_auth_token auth = .ok)
    (hhas : req.hasName = true)
    (hname : req.name = .jstr rawName)
    (hne : (stripStr rawName).isEmpty = false)
    (hlen : ¬255 < (stripStr rawName).length)
    (hvd : validateDescription req.description = .ok dd) :
    create_project state req auth freshId now =
      if state.any (fun p => lowerStr p.name == lowerStr (stripStr rawName)) then
        ⟨409, some "A project with this name already exists", none, state⟩
      else
        ⟨201, none, some ⟨freshId, stripStr rawName, dd, now, now⟩,
          ⟨freshId, stripStr rawName, dd, now, now⟩ :: state⟩ := by
  unfold create_project
  rw [hauth, hhas, hname, hvd]
  simp [hne, hlen]

/-- C2 counterexample: a request whose trimmed name duplicates the fixture
project "E-commerce Platform" case-insensitively but whose description is a
non-string value is answered 400, not 409, because `create_project`
validates the description before running the duplicate check. -/
theorem C2_counterexample :
    verify_auth_token (some (str "Bearer 1234567890")) = .ok ∧
    (MOCK_PROJECTS.any (fun p =>
      lowerStr p.name == lowerStr (stripStr (str "E-commerce Platform")))) = true ∧
    (create_project MOCK_PROJECTS
      ⟨true, .jstr (str "E-commerce Platform"), .jother⟩
      (some (str "Bearer 1234567890")) (str "u1") (str "t1")).status = 400 ∧
    (create_project MOCK_PROJECTS
      ⟨true, .jstr (str "E-commerce Platform"), .jother⟩
      (some (str "Bearer 1234567890")) (str "u1") (str "t1")).status ≠ 409 :=
  ⟨by decide, by decide, by decide, by decide⟩

/-- C2 (amended): for every state of the project list whose stored names are
themselves valid (non-empty, at most 255 characters) and every create
request with a valid token whose name is a string that, after trimming,
equals the name of a stored project case-insensitively, and whose
description passes validation (absent/null, or a string of at most 1000
characters after trimming), `create_project` returns 409. -/
theorem C2_duplicate_name_conflict (state : List Project) (req : CreateRequest)
    (auth : Option Str) (freshId now rawName : Str)
    (hauth : verify_auth_token auth = .ok)
    (hhas : req.hasName = true)
    (hname : req.name = .jstr rawName)
    (hvalid : ∀ p ∈ state, p.name ≠ [] ∧ p.name.length ≤ 255)
    (hdesc : req.description = .jnull ∨
      ∃ d, req.description = .jstr d ∧ (stripStr d).length ≤ 1000)
    (hdup : ∃ p ∈ state, lowerStr p.name = lowerStr (stripStr rawName)) :
    (create_project state req auth freshId now).status = 409 := by
  obtain ⟨p, hp, hpeq⟩ := hdup
  obtain ⟨dd, hvd⟩ := validateDescription_ok req.description hdesc
  have hlen1 : (stripStr rawName).length = p.name.length := by
    have h1 := lowerStr_length (stripStr rawName)
    have h2 := lowerStr_length p.name
    rw [← hpeq] at h1
    omega
  have hne : (stripStr rawName).isEmpty = false := by
    rw [List.isEmpty_eq_false]
    intro hc
    rw [hc] at hlen1
    exact (hvalid p hp).1 (List.length_eq_zero.mp hlen1.symm)
  have hlen : ¬255 < (stripStr rawName).length := by
    have := (hvalid p hp).2
    omega
  have hany : (state.any fun q => lowerStr q.name == lowerStr (stripStr rawName))
      = true := List.any_eq_true.mpr ⟨p, hp, beq_iff_eq.mpr hpeq⟩
  rw [create_project_valid_eq state req auth freshId now rawName dd hauth hhas hname
    hne hlen hvd, hany]
  rfl

/-- C2 witness: the spec's example — posting `{"name": "Foo"}` twice gives
201 the first time and, via the amended theorem applied to the state left by
the first call, 409 the second time. -/
theorem C2_witness :
    (create_project MOCK_PROJECTS ⟨true, .jstr (str "Foo"), .jnull⟩
      (some (str "Bearer 1234567890")) (str "u1") (str "t1")).status = 201 ∧
    (create_project
      (create_project MOCK_PROJECTS ⟨true, .jstr (str "Foo"), .jnull⟩
        (some (str "Bearer 1234567890")) (str "u1") (str "t1")).state
      ⟨true, .jstr (str "Foo"), .jnull⟩
      (some (str "Bearer 1234567890")) (str "u2") (str "t2")).status = 409 :=
  ⟨by decide,
    C2_duplicate_name_conflict _ ⟨true, .jstr (str "Foo"), .jnull⟩
      (some (str "Bearer 1234567890")) (str "u2") (str "t2") (str "Foo")
      (by decide) rfl rfl (by decide) (Or.inl rfl) (by decide)⟩

/-- C3: a create request with a valid token, a string name that is non-empty
and at most 255 characters after trimming and collides with no stored name,
and a valid optional description, succeeds: it answers 201 with a record
carrying the generated id, the trimmed name, equal creation and update
timestamps, a null description exactly when the given one was absent or
empty after trimming, and prepends that record to the project list. -/
theorem C3_create_project_success (state : List Project) (req : CreateRequest)
    (auth : Option Str) (freshId now rawName : Str)
    (hauth : verify_auth_token auth = .ok)
    (hhas : req.hasName = true)
    (hname : req.name = .jstr rawName)
    (hne : (stripStr rawName).isEmpty = false)
    (hlen : (stripStr rawName).length ≤ 255)
    (hdesc : req.description = .jnull ∨
      ∃ d, req.description = .jstr d ∧ (stripStr d).length ≤ 1000)
    (hnodup : ∀ p ∈ state, lowerStr p.name ≠ lowerStr (stripStr rawName)) :
    ∃ rec : Project,
      create_project state req auth freshId now =
        ⟨201, none, some rec, rec :: state⟩ ∧
      rec.id = freshId ∧
      rec.name = stripStr rawName ∧
      rec.created_at = now ∧ rec.updated_at = now ∧
      rec.created_at = rec.updated_at ∧
      ((req.description = .jnull ∨
          ∃ d, req.description = .jstr d ∧ (stripStr d).isEmpty = true) →
        rec.description = none) ∧
      (∀ d, req.description = .jstr d → (stripStr d).isEmpty = false →
        rec.description = some (stripStr d)) := by
  obtain ⟨dd, hvd⟩ := validateDescription_ok req.description hdesc
  have hany : state.any
      (fun p => lowerStr p.name == lowerStr (stripStr rawName)) = false := by
    rw [List.any_eq_false]
    intro p hp hbeq
    exact hnodup p hp (beq_iff_eq.mp hbeq)
  refine ⟨⟨freshId, stripStr rawName, dd, now, now⟩, ?_, rfl, rfl, rfl, rfl, rfl,
    ?_, ?_⟩
  · rw [create_project_valid_eq state req auth freshId now rawName dd hauth hhas
      hname hne (by omega) hvd]
    rw [if_neg (by rw [hany]; exact Bool.false_ne_true)]
  · rintro (h | ⟨d, hd, hemp⟩)
    · rw [h] at hvd
      have h2 : (Except.ok (none : Option Str) : Except String (Option Str)) =
          .ok dd := hvd
      injection h2 with h3
      show dd = none
      exact h3.symm
    · rw [hd] at hvd
      simp only [validateDescription] at hvd
      rw [if_pos hemp] at hvd
      injection hvd with h3
      show dd = none
      exact h3.symm
  · intro d hd hfalse
    rw [hd] at hvd
    simp only [validateDescription] at hvd
    rw [if_neg (by rw [hfalse]; exact Bool.false_ne_true)] at hvd
    by_cases hl : 1000 < (stripStr d).length
    · rw [if_pos hl] at hvd
      cases hvd
    · rw [if_neg hl] at hvd
      injection hvd with h3
      show dd = some (stripStr d)
      exact h3.symm

/-- C3 witness: the general theorem instantiated at a concrete fresh name
with an explicitly empty-after-trim description, checking the record and the
prepend concretely. -/
theorem C3_witness :
    ∃ rec : Project,
      create_project MOCK_PROJECTS
        ⟨true, .jstr (str "  New Project  "), .jstr (str "   ")⟩
        (some (str "Bearer 1234567890")) (str "u9") (str "t9") =
        ⟨201, none, some rec, rec :: MOCK_PROJECTS⟩ ∧
      rec.id = str "u9" ∧
      rec.name = stripStr (str "  New Project  ") ∧
      rec.created_at = str "t9" ∧ rec.updated_at = str "t9" ∧
      rec.created_at = rec.updated_at ∧
      ((JVal.jstr (str "   ") = .jnull ∨
          ∃ d, JVal.jstr (str "   ") = .jstr d ∧ (stripStr d).isEmpty = true) →
        rec.description = none) ∧
      (∀ d, JVal.jstr (str "   ") = .jstr d → (stripStr d).isEmpty = false →
        rec.description = some (stripStr d)) :=
  C3_create_project_success MOCK_PROJECTS
    ⟨true, .jstr (str "  New Project  "), .jstr (str "   ")⟩
    (some (str "Bearer 1234567890")) (str "u9") (str "t9")
    (str "  New Project  ") (by decide) rfl rfl (by decide) (by decide)
    (Or.inr ⟨str "   ", rfl, by decide⟩) (by decide)

/-- A list is a prefix of itself followed by anything, in `isPrefixOf`
form. -/
theorem isPrefixOf_append_self (xs ys : Str) : xs.isPrefixOf (xs ++ ys) = true := by
  induction xs with
  | nil => simp
  | cons c t ih => simp [List.isPrefixOf, ih]

/-- C6: for non-empty credentials, `login` answers 401 exactly when the
password is shorter than 3 characters, and otherwise 200 with an access
token prefixed `"mock_jwt_"`, token type `"bearer"`, and a user object
echoing the username as email. -/
theorem C6_login_behavior (username password tokenSuffix : Str)
    (hu : username.isEmpty = false) (hp : password.isEmpty = false) :
    (password.length < 3 → (login username password tokenSuffix).status = 401) ∧
    (3 ≤ password.length →
      (login username password tokenSuffix).status = 200 ∧
      (∃ tok, (login username password tokenSuffix).access_token = some tok ∧
        (str "mock_jwt_").isPrefixOf tok = true) ∧
      (login username password tokenSuffix).token_type = some (str "bearer") ∧
      (login username password tokenSuffix).userEmail = some username) := by
  have hred : login username password tokenSuffix =
      (if password.length < 3 then ⟨401, none, none, none, none⟩
       else ⟨200, some (str "mock_jwt_" ++ tokenSuffix), some (str "bearer"),
         some username,
         some (capitalizeStr
           (if username.contains (Char.ofNat 64) then
             username.takeWhile (fun c => c ≠ Char.ofNat 64)
           else username))⟩) := by
    unfold login
    rw [hu, hp]
    rfl
  constructor
  · intro h3
    rw [hred, if_pos h3]
  · intro h3
    rw [hred, if_neg (by omega)]
    refine ⟨rfl, ⟨str "mock_jwt_" ++ tokenSuffix, rfl, ?_⟩, rfl, rfl⟩
    exact isPrefixOf_append_self _ _

/-- C6 witness: a two-character password is rejected with 401. -/
theorem C6_witness :
    (login (str "alice@example.com") (str "ab") (str "SUFFIX")).status = 401 :=
  (C6_login_behavior (str "alice@example.com") (str "ab") (str "SUFFIX")
    (by decide) (by decide)).1 (by decide)

/-- A found element satisfies the search predicate (explicit-argument form
of `List.find?_some`). -/
theorem find?_pred {α : Type} (p : α → Bool) (l : List α) (a : α)
    (h : l.find? p = some a) : p a = true := List.find?_some h

/-- The initial item store satisfies the id invariant. -/
theorem ItemInv_init : ItemInv ItemStore.init :=
  ⟨fun it h => absurd h (List.not_mem_nil it), List.Pairwise.nil⟩

/-- Every item operation preserves the id invariant. -/
theorem ItemInv_apply (st : ItemStore) (op : ItemOp) (h : ItemInv st) :
    ItemInv (applyItemOp st op) := by
  obtain ⟨hbound, hdistinct⟩ := h
  cases op with
  | createOp v now =>
    constructor
    · intro it hmem
      show it.id < st.nextId + 1
      rcases List.mem_append.mp hmem with hmem | hmem
      · exact Nat.lt_succ_of_lt (hbound it hmem)
      · rcases List.mem_singleton.mp hmem with rfl
        exact Nat.lt_succ_self _
    · show List.Pairwise _ (st.items ++ [⟨st.nextId, v, now⟩])
      rw [List.pairwise_append]
      refine ⟨hdistinct, List.pairwise_singleton _ _, ?_⟩
      intro a ha b hb
      rcases List.mem_singleton.mp hb with rfl
      exact Nat.ne_of_lt (hbound a ha)
  | updateOp i v =>
    show ItemInv (match update_item st i v with | some r => r.2 | none => st)
    unfold update_item
    cases hf : st.items.find? (fun it => it.id == i) with
    | none => exact ⟨hbound, hdistinct⟩
    | some old =>
      have h0 := find?_pred (fun it : Item => it.id == i) st.items old hf
      have hoi : old.id = i := beq_iff_eq.mp h0
      have hid : ∀ it : Item,
          (if it.id == i then (⟨old.id, v, old.created_at⟩ : Item) else it).id
            = it.id := by
        intro it
        by_cases hc : (it.id == i) = true
        · rw [if_pos hc, hoi]
          exact (beq_iff_eq.mp hc).symm
        · rw [if_neg hc]
      constructor
      · intro it hmem
        rcases List.mem_map.mp hmem with ⟨a, ha, rfl⟩
        show _ < st.nextId
        rw [hid a]
        exact hbound a ha
      · show List.Pairwise _ (st.items.map _)
        rw [List.pairwise_map]
        apply hdistinct.imp
        intro a b hab
        show _ ≠ _
        rw [hid a, hid b]
        exact hab
  | deleteOp i =>
    show ItemInv (match delete_item st i with | some st2 => st2 | none => st)
    unfold delete_item
    by_cases hc : (st.items.any fun it => it.id == i) = true
    · rw [if_pos hc]
      constructor
      · intro it hmem
        exact hbound it (List.mem_filter.mp hmem).1
      · exact List.Pairwise.sublist (List.filter_sublist _) hdistinct
    · rw [if_neg hc]
      exact ⟨hbound, hdistinct⟩

/-- The id invariant holds after any operation sequence from any invariant
store. -/
theorem ItemInv_foldl (ops : List ItemOp) (st : ItemStore) (h : ItemInv st) :
    ItemInv (ops.foldl applyItemOp st) := by
  induction ops generalizing st with
  | nil => exact h
  | cons op rest ih => exact ih _ (ItemInv_apply st op h)

/-- The auto-increment counter never decreases. -/
theorem nextId_mono (st : ItemStore) (op : ItemOp) :
    st.nextId ≤ (applyItemOp st op).nextId := by
  cases op with
  | createOp v now => exact Nat.le_succ _
  | updateOp i v =>
    show st.nextId ≤ (match update_item st i v with | some r => r.2 | none => st).nextId
    unfold update_item
    cases hf : st.items.find? (fun it => it.id == i) with
    | none => exact Nat.le_refl _
    | some old => exact Nat.le_refl _
  | deleteOp i =>
    show st.nextId ≤ (match delete_item st i with | some st2 => st2 | none => st).nextId
    unfold delete_item
    by_cases hc : (st.items.any fun it => it.id == i) = true
    · rw [if_pos hc]
    · rw [if_neg hc]

/-- C7: the Item/User CRUD model satisfies the claimed behaviour — the id
invariant holds in every reachable store, the counter is monotone so ids are
never reused after deletion, create assigns the fresh counter id, get-by-id
answers 404 when the id is absent, delete-then-get answers 404, and update
preserves id and created_at; likewise delete-then-get for users. -/
theorem C7_item_user_crud :
    (∀ ops : List ItemOp, ItemInv (runItemOps ops)) ∧
    (∀ (st : ItemStore) (op : ItemOp), st.nextId ≤ (applyItemOp st op).nextId) ∧
    (∀ (st : ItemStore) (v now : Str),
      (create_item st v now).1.id = st.nextId ∧
      (create_item st v now).2.nextId = st.nextId + 1 ∧
      (ItemInv st → ∀ it ∈ st.items, it.id ≠ (create_item st v now).1.id)) ∧
    (∀ (st : ItemStore) (i : Nat),
      (∀ it ∈ st.items, it.id ≠ i) → get_item st i = none) ∧
    (∀ (st st2 : ItemStore) (i : Nat),
      delete_item st i = some st2 → get_item st2 i = none) ∧
    (∀ (st : ItemStore) (i : Nat) (v : Str) (r : Item × ItemStore),
      update_item st i v = some r →
        r.1.value = v ∧
        ∃ old, get_item st i = some old ∧ r.1.id = old.id ∧
          r.1.created_at = old.created_at) ∧
    (∀ (st st2 : UserStore) (i : Nat),
      delete_user st i = some st2 → get_user st2 i = none) := by
  refine ⟨fun ops => ItemInv_foldl ops ItemStore.init ItemInv_init,
    nextId_mono, ?_, ?_, ?_, ?_, ?_⟩
  · intro st v now
    exact ⟨rfl, rfl, fun hInv it hmem => Nat.ne_of_lt (hInv.1 it hmem)⟩
  · intro st i h
    unfold get_item
    rw [List.find?_eq_none]
    intro it hmem hbeq
    exact h it hmem (beq_iff_eq.mp hbeq)
  · intro st st2 i h
    unfold delete_item at h
    by_cases hc : (st.items.any fun it => it.id == i) = true
    · rw [if_pos hc] at h
      injection h with h2
      rw [← h2]
      unfold get_item
      rw [List.find?_eq_none]
      intro it hmem hbeq
      have h3 := (List.mem_filter.mp hmem).2
      rw [hbeq] at h3
      cases h3
    · rw [if_neg hc] at h
      cases h
  · intro st i v r h
    unfold update_item at h
    cases hf : st.items.find? (fun it => it.id == i) with
    | none => rw [hf] at h; cases h
    | some old =>
      rw [hf] at h
      injection h with h2
      rw [← h2]
      exact ⟨rfl, old, hf, rfl, rfl⟩
  · intro st st2 i h
    unfold delete_user at h
    by_cases hc : (st.users.any fun u => u.id == i) = true
    · rw [if_pos hc] at h
      injection h with h2
      rw [← h2]
      unfold get_user
      rw [List.find?_eq_none]
      intro u hmem hbeq
      have h3 := (List.mem_filter.mp hmem).2
      rw [hbeq] at h3
      cases h3
    · rw [if_neg hc] at h
      cases h

/-- C7 witness: delete-then-fetch at a concrete one-item store answers 404,
via the general theorem. -/
theorem C7_witness :
    get_item ⟨[], 2⟩ 1 = none :=
  C7_item_user_crud.2.2.2.2.1 ⟨[⟨1, str "a", str "t1"⟩], 2⟩ ⟨[], 2⟩ 1 (by decide)

/-- C8: none of the persona, brand-design or third-party endpoints ever
answers 401 — each answers 200 or 400, and its entire response is
independent of the Authorization header (the token is only logged, never
validated), so success or failure depends solely on body validation. -/
theorem C8_fixture_endpoints_ignore_auth :
    (∀ uid pid auth auth2 coin,
      (get_userpersonas uid pid auth coin).1 = 200 ∧
      get_userpersonas uid pid auth coin = get_userpersonas uid pid auth2 coin) ∧
    (∀ sel uid pid auth auth2,
      (upload_userpersonas sel uid pid auth = 400 ∨
        upload_userpersonas sel uid pid auth = 200) ∧
      upload_userpersonas sel uid pid auth = upload_userpersonas sel uid pid auth2) ∧
    (∀ uid pid auth auth2 coin,
      (get_branddesign uid pid auth coin).1 = 200 ∧
      get_branddesign uid pid auth coin = get_branddesign uid pid auth2 coin) ∧
    (∀ bn colors uid pid auth auth2,
      (upload_branddesign bn colors uid pid auth = 400 ∨
        upload_branddesign bn colors uid pid auth = 200) ∧
      upload_branddesign bn colors uid pid auth
        = upload_branddesign bn colors uid pid auth2) ∧
    (∀ uid pid auth auth2,
      get_thirdparty uid pid auth = 200 ∧
      get_thirdparty uid pid auth = get_thirdparty uid pid auth2) ∧
    (∀ sel uid pid auth auth2,
      upload_thirdparty sel uid pid auth = 200 ∧
      upload_thirdparty sel uid pid auth = upload_thirdparty sel uid pid auth2) ∧
    (∀ prov uid pid auth auth2,
      (upload_thirdprovider prov uid pid auth = 400 ∨
        upload_thirdprovider prov uid pid auth = 200) ∧
      upload_thirdprovider prov uid pid auth
        = upload_thirdprovider prov uid pid auth2) := by
  refine ⟨?_, ?_, ?_, ?_, ?_, ?_, ?_⟩
  · intro uid pid auth auth2 coin
    exact ⟨rfl, rfl⟩
  · intro sel uid pid auth auth2
    constructor
    · show (if sel.isEmpty then (400 : Nat) else 200) = 400 ∨
        (if sel.isEmpty then (400 : Nat) else 200) = 200
      by_cases hs : sel.isEmpty
      · left; rw [if_pos hs]
      · right; rw [if_neg hs]
    · rfl
  · intro uid pid auth auth2 coin
    constructor
    · show (if coin then ((200 : Nat), _) else (200, BrandBody.empty)).1 = 200
      by_cases hc : coin = true
      · rw [if_pos hc]
      · rw [if_neg hc]
    · rfl
  · intro bn colors uid pid auth auth2
    constructor
    · show (if (stripStr bn).isEmpty then (400 : Nat)
          else if colors.isEmpty then 400 else 200) = 400 ∨
        (if (stripStr bn).isEmpty then (400 : Nat)
          else if colors.isEmpty then 400 else 200) = 200
      by_cases h1 : (stripStr bn).isEmpty
      · left; rw [if_pos h1]
      · by_cases h2 : colors.isEmpty
        · left; rw [if_neg h1, if_pos h2]
        · right; rw [if_neg h1, if_neg h2]
    · rfl
  · intro uid pid auth auth2
    exact ⟨rfl, rfl⟩
  · intro sel uid pid auth auth2
    exact ⟨rfl, rfl⟩
  · intro prov uid pid auth auth2
    constructor
    · show (if prov.isEmpty then (400 : Nat) else 200) = 400 ∨
        (if prov.isEmpty then (400 : Nat) else 200) = 200
      by_cases hs : prov.isEmpty
      · left; rw [if_pos hs]
      · right; rw [if_neg hs]
    · rfl

/-- C10: `get_branddesign` is nondeterministic in exactly the claimed way —
with the fresh random draw made explicit as a boolean parameter, the same
request yields the full mock brand design when the draw is true and the
empty object when it is false, the two bodies differ, and the draw is the
only input the response depends on. -/
theorem C10_branddesign_nondeterminism
    (uid pid auth uid2 pid2 auth2 : Option Str) :
    (get_branddesign uid pid auth true).2 =
      .full (str "TechCorp Solutions") (str "Inter") (str "Professional") ∧
    (get_branddesign uid pid auth false).2 = .empty ∧
    (get_branddesign uid pid auth true).2 ≠ (get_branddesign uid pid auth false).2 ∧
    (∀ coin, get_branddesign uid pid auth coin = get_branddesign uid2 pid2 auth2 coin) :=
  ⟨rfl, rfl, fun h => BrandBody.noConfusion h, fun _ => rfl⟩

/-- C10 witness: the differing pair of executions at a concrete request. -/
theorem C10_witness :
    (get_branddesign none none none true).2 ≠ (get_branddesign none none none false).2 :=
  (C10_branddesign_nondeterminism none none none none none none).2.2.1

end BendersDummy
